import Mathlib

/-!
Verification of the smart-ai-parking-finder backend (src/backend/server.js)
against its natural-language specification.

The JavaScript source is shallowly embedded: JS numbers are modelled by ℚ
(exact decimal literals) and ℤ where the source only ever holds integers;
`Math.random()` draws are passed as explicit rational parameters in [0,1);
`Math.sqrt` results are passed as a parameter characterised by hypotheses
(nonnegative, square equals the radicand); fallible code returns `Except`
or `Option`; the mutable Mongo store and the in-memory caches are passed
as explicit state.
-/

/-- Models JS `Math.round`: round half towards positive infinity,
`Math.round x = ⌊x + 0.5⌋`. -/
def jsRound (x : ℚ) : ℤ := ⌊x + 1/2⌋

/-- Models the `reduce`-then-divide average used at server.js:105
(`historicalPattern.reduce((sum, r) => sum + r.availableSpots, 0) / length`). -/
def listAvg (l : List ℚ) : ℚ := l.sum / l.length

/-- Models server.js:108-113: `trend = recentAvg - olderAvg` where
`recentAvg = slice(0,3)-sum / 3` and `olderAvg = slice(3,6)-sum / 3`,
computed only when `recentData.length >= 2` (otherwise `trend = 0`). -/
def trendOf (recent : List ℚ) : ℚ :=
  if 2 ≤ recent.length then
    (recent.take 3).sum / 3 - ((recent.drop 3).take 3).sum / 3
  else 0

/-- Models server.js:117-118: population variance of the matched records'
available counts around their mean. -/
def varianceOf (l : List ℚ) : ℚ :=
  (l.map (fun a => (a - listAvg l) ^ 2)).sum / l.length

/-- Models `ParkingPredictor.predictAvailability` (server.js:83-129) after the
store reads: `matched` is the list of available counts of the up-to-20
historical records matching the target (dayOfWeek, hour); `recent` is the
list of available counts of the 6 most recent records; `availableSpots` and
`totalSpots` come from the fetched lot; `σ` models `Math.sqrt(variance)`;
`r` models the `Math.random()` draw of the no-data branch.
Returns `(predictedSpots, confidence)`. -/
def predictAvailability (matched recent : List ℚ) (availableSpots totalSpots : ℤ)
    (σ r : ℚ) : ℤ × ℤ :=
  if matched.length = 0 then
    (max 0 (availableSpots + ⌊r * 10 - 5⌋), 60)
  else
    let avgAvailability := listAvg matched
    let trend := trendOf recent
    let predictedSpots := jsRound (avgAvailability * 0.6 + (availableSpots : ℚ) * 0.3 + trend * 0.1)
    let confidence : ℚ := min 95 (max 70 (100 - (σ / (totalSpots : ℚ)) * 100))
    let adjustedPrediction := max 0 (min totalSpots predictedSpots)
    (adjustedPrediction, jsRound confidence)

/-- Modelled from the spec's words (C3): clamp a rational to `[lo, hi]`. -/
def clampQ (x lo hi : ℚ) : ℚ := min hi (max lo x)

/-- Modelled from the spec's words (C3): clamp an integer to `[lo, hi]`. -/
def clampZ (x lo hi : ℤ) : ℤ := min hi (max lo x)

/-- Modelled from the spec's words (C3):
`round(0.6*avgAvailability + 0.3*currentAvailable + 0.1*trend)` clamped
to `[0, totalSpots]`. -/
def specPredictedSpots (avg current trend : ℚ) (total : ℤ) : ℤ :=
  clampZ (jsRound (0.6 * avg + 0.3 * current + 0.1 * trend)) 0 total

/-- Modelled from the spec's words (C3):
`confidence = round(clamp(100 - (stdDev/totalSpots)*100, 70, 95))`. -/
def specConfidence (stdDev : ℚ) (total : ℤ) : ℤ :=
  jsRound (clampQ (100 - (stdDev / (total : ℚ)) * 100) 70 95)

/-- C3: in the matched-history branch (`matched ≠ []`), `predictAvailability`
returns exactly the spec's formula: predictedSpots =
`round(0.6*avg + 0.3*current + 0.1*trend)` clamped to `[0, totalSpots]`, and
confidence = `round(clamp(100 - (stdDev/totalSpots)*100, 70, 95))`, where
`σ` is the standard deviation over the matched set (`σ ≥ 0`, `σ² = variance`). -/
theorem C3_matched_formula (matched recent : List ℚ) (a total : ℤ) (σ r : ℚ)
    (hm : matched ≠ []) (ht : 0 < total)
    (hσ : 0 ≤ σ) (hσ2 : σ ^ 2 = varianceOf matched) :
    predictAvailability matched recent a total σ r =
      (specPredictedSpots (listAvg matched) (a : ℚ) (trendOf recent) total,
       specConfidence σ total) := by
  have hlen : matched.length ≠ 0 := by simpa using hm
  unfold predictAvailability specPredictedSpots specConfidence clampZ clampQ
  simp only [hlen, if_false, Prod.mk.injEq]
  constructor
  · have harg : listAvg matched * 0.6 + (a : ℚ) * 0.3 + trendOf recent * 0.1 =
        0.6 * listAvg matched + 0.3 * (a : ℚ) + 0.1 * trendOf recent := by ring
    rw [harg]
    rcases le_total (jsRound (0.6 * listAvg matched + 0.3 * (a : ℚ) + 0.1 * trendOf recent)) 0
      with h | h <;>
      rcases le_total (jsRound (0.6 * listAvg matched + 0.3 * (a : ℚ) + 0.1 * trendOf recent)) total
        with h' | h' <;>
      simp [max_def, min_def, *] <;> omega
  · trivial

/-- Witness for C3 at the spec's end-to-end scenario: total=150, available=45,
matched records [45, 55] (mean 50, variance 25, stdDev 5), six recent records
with latest-3 average 48 and prior-3 average 52 (trend −4): the predictor
returns predictedSpots = 43 and confidence = 95. -/
theorem C3_matched_formula_witness :
    predictAvailability [45, 55] [48, 48, 48, 52, 52, 52] 45 150 5 0 = (43, 95) := by
  rw [C3_matched_formula [45, 55] [48, 48, 48, 52, 52, 52] 45 150 5 0
    (by simp) (by norm_num) (by norm_num) (by norm_num [varianceOf, listAvg])]
  norm_num [specPredictedSpots, specConfidence, clampZ, clampQ, jsRound, listAvg, trendOf]

/-- C8: with zero matching historical records, `predictAvailability` falls into
the no-data branch (server.js:98-103): confidence is exactly 60, and
predictedSpots equals `max 0 (currentAvailable + d)` for a delta
`d = ⌊r*10 - 5⌋` with `|d| ≤ 5`, for every random draw `r ∈ [0,1)`. -/
theorem C8_no_history (recent : List ℚ) (a total : ℤ) (σ r : ℚ)
    (hr0 : 0 ≤ r) (hr1 : r < 1) :
    (predictAvailability [] recent a total σ r).2 = 60 ∧
    ∃ d : ℤ, |d| ≤ 5 ∧ (predictAvailability [] recent a total σ r).1 = max 0 (a + d) := by
  refine ⟨rfl, ⌊r * 10 - 5⌋, ?_, rfl⟩
  rw [abs_le]
  constructor
  · have h : (-5 : ℚ) ≤ r * 10 - 5 := by nlinarith
    exact_mod_cast Int.le_floor.mpr (by exact_mod_cast h)
  · have h : r * 10 - 5 < ((5 : ℤ) : ℚ) := by push_cast; nlinarith
    have := Int.floor_lt.mpr h
    omega

/-- Witness for C8: a facility with 45 available spots and the draw r = 1/2
(delta 0) yields prediction 45 with confidence 60. -/
theorem C8_no_history_witness :
    (predictAvailability [] [] 45 150 0 (1/2)).2 = 60 ∧
    ∃ d : ℤ, |d| ≤ 5 ∧ (predictAvailability [] [] 45 150 0 (1/2)).1 = max 0 (45 + d) :=
  C8_no_history [] 45 150 0 (1/2) (by norm_num) (by norm_num)

/-- Models the core of `app.get('/api/parking-lots/:id/predict')` together with
the `ParkingLot.findById` read at server.js:85-86: a missing facility makes the
predictor throw `'Parking lot not found'`; it never builds a prediction. -/
def predictorWithLookup (lookup : Option (ℤ × ℤ)) (matched recent : List ℚ)
    (σ r : ℚ) : Except String (ℤ × ℤ) :=
  match lookup with
  | none => Except.error ("Parking lot not found")
  | some (availableSpots, totalSpots) =>
    Except.ok (predictAvailability matched recent availableSpots totalSpots σ r)

/-- Models the route handler `app.get('/api/parking-lots/:id/predict')`
(server.js:496-509): any error thrown by the predictor — including the
not-found error — is caught by the single catch block and answered with
HTTP status 500. Returns (status, body). -/
def predictRoute (lookup : Option (ℤ × ℤ)) (matched recent : List ℚ)
    (σ r : ℚ) : ℕ × Except String (ℤ × ℤ) :=
  match predictorWithLookup lookup matched recent σ r with
  | Except.ok p => (200, Except.ok p)
  | Except.error e => (500, Except.error e)

/-- C5 counterexample: for a nonexistent facility id the predict endpoint
answers HTTP 500 (internal error), not 404 (not found), contradicting the
claim that the failure is surfaced as a not-found condition. -/
theorem C5_counterexample :
    (predictRoute none [] [] 0 0).1 = 500 ∧ (predictRoute none [] [] 0 0).1 ≠ 404 := by
  exact ⟨rfl, by decide⟩

/-- C5 amended: for every nonexistent facility id the predictor fails with
the not-found error and never returns a synthesized prediction, but the
predict route surfaces the failure as HTTP 500 (internal error), not 404. -/
theorem C5_amended_thm (matched recent : List ℚ) (σ r : ℚ) :
    predictorWithLookup none matched recent σ r = Except.error ("Parking lot not found") ∧
    predictRoute none matched recent σ r = (500, Except.error ("Parking lot not found")) :=
  ⟨rfl, rfl⟩

/-- Models a ParkingLot document (schema at server.js:42-56; sensors omitted —
no claim mentions them). `lastUpdate` is a millisecond timestamp. -/
structure ParkingLotState where
  id : String
  name : String
  totalSpots : ℤ
  availableSpots : ℤ
  lat : ℚ
  lng : ℚ
  lastUpdate : ℤ
deriving DecidableEq, Repr

/-- Models the `parking-update` socket event payload emitted at
server.js:484-488 and server.js:584-588. -/
structure ParkingUpdateEvent where
  lotId : String
  availableSpots : ℤ
  timestamp : ℤ
deriving DecidableEq, Repr

/-- Models JS division that is consumed as a finite number: a zero divisor
yields NaN/Infinity, modelled as `none`, which propagates. -/
def jsDiv (a b : ℚ) : Option ℚ := if b = 0 then none else some (a / b)

/-- Models a HistoricalData document (schema at server.js:58-66;
isHoliday is always false where the core writes records). -/
structure HistoricalRecord where
  parkingLotId : String
  timestamp : ℤ
  availableSpots : ℤ
  occupancyRate : Option ℚ
  dayOfWeek : ℤ
  hour : ℤ
deriving DecidableEq, Repr

/-- Models the per-lot mutation of the background job (server.js:573-577):
`change = Math.floor(Math.random()*7) - 3`,
`newAvailable = Math.max(0, Math.min(totalSpots, availableSpots + change))`. -/
def perturbLot (lot : ParkingLotState) (now : ℤ) (r : ℚ) : ParkingLotState :=
  { lot with
    availableSpots := max 0 (min lot.totalSpots (lot.availableSpots + (⌊r * 7⌋ - 3))),
    lastUpdate := now }

/-- Models the `parking-update` payload built from a freshly saved lot. -/
def broadcastEvent (lot : ParkingLotState) : ParkingUpdateEvent :=
  { lotId := lot.id, availableSpots := lot.availableSpots, timestamp := lot.lastUpdate }

/-- Models `ParkingPredictor.recordCurrentState` (server.js:131-151) applied to
the freshly saved lot: snapshots availableSpots and the derived occupancyRate
`((total - available) / total) * 100`. -/
def recordCurrentState (lot : ParkingLotState) (now dow hr : ℤ) : HistoricalRecord :=
  { parkingLotId := lot.id, timestamp := now, availableSpots := lot.availableSpots,
    occupancyRate :=
      (jsDiv ((lot.totalSpots : ℚ) - (lot.availableSpots : ℚ)) (lot.totalSpots : ℚ)).map
        (fun q => q * 100),
    dayOfWeek := dow, hour := hr }

/-- Models one cycle of the `setInterval` background job (server.js:568-593),
iterating the fetched lots from index `i`. Per index `i`: `rnd i` is the
perturbation draw, `saveOk i` tells whether `lot.save()` succeeds, `histDraw i`
whether `Math.random() < 0.17`, and `histOk i` whether the save inside
`recordCurrentState` succeeds (its failure is caught inside that function and
only logged). A `lot.save()` failure propagates to the try/catch wrapping the
whole for-loop, so the store keeps the old state for that lot and all later
lots, and no further events are emitted in the cycle.
Returns (persisted lots, emitted events, created history records). -/
def runCycleGo (now dow hr : ℤ) (rnd : ℕ → ℚ) (saveOk histDraw histOk : ℕ → Bool) :
    List ParkingLotState → ℕ →
    List ParkingLotState × List ParkingUpdateEvent × List HistoricalRecord
  | [], _ => ([], [], [])
  | lot :: rest, i =>
    let saved := perturbLot lot now (rnd i)
    if saveOk i then
      let res := runCycleGo now dow hr rnd saveOk histDraw histOk rest (i + 1)
      (saved :: res.1,
       broadcastEvent saved :: res.2.1,
       if histDraw i && histOk i then recordCurrentState saved now dow hr :: res.2.2
       else res.2.2)
    else
      (lot :: rest, [], [])

/-- One full background cycle over all fetched lots. -/
def runCycle (now dow hr : ℤ) (rnd : ℕ → ℚ) (saveOk histDraw histOk : ℕ → Bool)
    (lots : List ParkingLotState) :
    List ParkingLotState × List ParkingUpdateEvent × List HistoricalRecord :=
  runCycleGo now dow hr rnd saveOk histDraw histOk lots 0

/-- Models the core of `app.put('/api/parking-lots/:id')` (server.js:464-494):
`findByIdAndUpdate` stores the request body's availableSpots verbatim —
no clamping and no validation against totalSpots. -/
def updateAvailability (lot : ParkingLotState) (availableSpots now : ℤ) : ParkingLotState :=
  { lot with availableSpots := availableSpots, lastUpdate := now }

/-- One of the seeded lots (server.js:600). -/
def northCampusLotA : ParkingLotState :=
  { id := "lotA", name := "North Campus Lot A", totalSpots := 150, availableSpots := 45,
    lat := 33.4242, lng := -111.9281, lastUpdate := 0 }

/-- Another seeded lot (server.js:601). -/
def southCampusLotB : ParkingLotState :=
  { id := "lotB", name := "South Campus Lot B", totalSpots := 200, availableSpots := 12,
    lat := 33.4225, lng := -111.9265, lastUpdate := 0 }

/-- C1 counterexample: a PUT update with availableSpots = 999 on a lot of
capacity 150 is stored verbatim, leaving availableSpots > totalSpots — the
claimed invariant does not hold after every update call. -/
theorem C1_counterexample :
    ¬ ((updateAvailability northCampusLotA 999 1).availableSpots ≤
       (updateAvailability northCampusLotA 999 1).totalSpots) := by
  simp [updateAvailability, northCampusLotA]

/-- Helper: every lot in the persisted output of a possibly aborted cycle satisfies the
capacity bounds, provided every input lot did (perturbed lots are re-clamped
into `[0, total]`; lots untouched after an aborted save keep their bounds). -/
lemma runCycleGo_preserves_bounds (now dow hr : ℤ) (rnd : ℕ → ℚ)
    (saveOk histDraw histOk : ℕ → Bool) :
    ∀ (lots : List ParkingLotState) (i : ℕ),
      (∀ lot ∈ lots, 0 ≤ lot.availableSpots ∧ lot.availableSpots ≤ lot.totalSpots) →
      ∀ l ∈ (runCycleGo now dow hr rnd saveOk histDraw histOk lots i).1,
        0 ≤ l.availableSpots ∧ l.availableSpots ≤ l.totalSpots := by
  intro lots
  induction lots with
  | nil => intro i _ l hl; simp [runCycleGo] at hl
  | cons lot rest ih =>
    intro i hinv l hl
    have hlot := hinv lot (List.mem_cons_self lot rest)
    have hrest : ∀ x ∈ rest, 0 ≤ x.availableSpots ∧ x.availableSpots ≤ x.totalSpots :=
      fun x hx => hinv x (List.mem_cons_of_mem lot hx)
    by_cases hs : saveOk i = true
    · simp only [runCycleGo, hs, if_true] at hl
      rcases List.mem_cons.mp hl with hh | ht
      · subst hh
        refine ⟨le_max_left _ _, ?_⟩
        have h0t : (0 : ℤ) ≤ lot.totalSpots := le_trans hlot.1 hlot.2
        simp only [perturbLot]
        omega
      · exact ih (i + 1) hrest l ht
    · simp only [runCycleGo, hs, if_false] at hl
      exact hinv l hl

/-- C1 amended: after every BroadcastScheduler cycle every stored facility
still satisfies `0 ≤ availableSpots ≤ totalSpots` (the perturbation re-clamps
into `[0, total]`, and facilities skipped by an aborted cycle keep their old
in-bounds value); after an update call the invariant holds when the supplied
availableSpots itself lies in `[0, totalSpots]` — the handler stores the
payload verbatim, so it holds only then. -/
theorem C1_amended_thm (lots : List ParkingLotState) (now dow hr : ℤ) (rnd : ℕ → ℚ)
    (saveOk histDraw histOk : ℕ → Bool)
    (hinv : ∀ lot ∈ lots, 0 ≤ lot.availableSpots ∧ lot.availableSpots ≤ lot.totalSpots)
    (lot : ParkingLotState) (v now2 : ℤ) (hv : 0 ≤ v ∧ v ≤ lot.totalSpots) :
    (∀ l ∈ (runCycle now dow hr rnd saveOk histDraw histOk lots).1,
        0 ≤ l.availableSpots ∧ l.availableSpots ≤ l.totalSpots) ∧
    (0 ≤ (updateAvailability lot v now2).availableSpots ∧
     (updateAvailability lot v now2).availableSpots ≤
       (updateAvailability lot v now2).totalSpots) := by
  refine ⟨runCycleGo_preserves_bounds now dow hr rnd saveOk histDraw histOk lots 0 hinv, ?_⟩
  simpa [updateAvailability] using hv

/-- Witness for C1 amended: one seeded lot, a cycle with draw 0 (change −3)
and an in-bounds update value 45. -/
theorem C1_amended_thm_witness :
    (∀ l ∈ (runCycle 1 2 3 (fun _ => 0) (fun _ => true) (fun _ => true) (fun _ => true)
        [northCampusLotA]).1,
        0 ≤ l.availableSpots ∧ l.availableSpots ≤ l.totalSpots) ∧
    (0 ≤ (updateAvailability northCampusLotA 45 1).availableSpots ∧
     (updateAvailability northCampusLotA 45 1).availableSpots ≤
       (updateAvailability northCampusLotA 45 1).totalSpots) :=
  C1_amended_thm [northCampusLotA] 1 2 3 (fun _ => 0) (fun _ => true) (fun _ => true)
    (fun _ => true)
    (by intro lot hl; simp [northCampusLotA] at hl; subst hl; simp [northCampusLotA])
    northCampusLotA 45 1 (by simp [northCampusLotA])

/-- C2 counterexample: in a cycle over two facilities where persisting the
first facility's update fails (`saveOk 0 = false`), the second facility is
neither perturbed nor persisted (it keeps availableSpots 12 although its draw
dictates a −3 change) and no change event at all is emitted — the per-item
failure aborts the whole cycle because the catch block wraps the entire
for-loop (server.js:568-593). -/
theorem C2_counterexample :
    (runCycle 1 2 3 (fun _ => 0) (fun i => i != 0) (fun _ => false) (fun _ => true)
        [northCampusLotA, southCampusLotB]).1 = [northCampusLotA, southCampusLotB] ∧
    (runCycle 1 2 3 (fun _ => 0) (fun i => i != 0) (fun _ => false) (fun _ => true)
        [northCampusLotA, southCampusLotB]).2.1 = [] :=
  ⟨rfl, rfl⟩

/-- Helper: when every `lot.save()` succeeds, a cycle perturbs, persists and
emits an event for every facility, whatever the history-snapshot outcomes. -/
lemma runCycleGo_all_saves_ok (now dow hr : ℤ) (rnd : ℕ → ℚ)
    (histDraw histOk : ℕ → Bool) :
    ∀ (lots : List ParkingLotState) (i : ℕ),
      (runCycleGo now dow hr rnd (fun _ => true) histDraw histOk lots i).1 =
        List.mapIdx (fun k lot => perturbLot lot now (rnd (i + k))) lots ∧
      (runCycleGo now dow hr rnd (fun _ => true) histDraw histOk lots i).2.1 =
        List.mapIdx (fun k lot => broadcastEvent (perturbLot lot now (rnd (i + k)))) lots := by
  intro lots
  induction lots with
  | nil => intro i; simp [runCycleGo]
  | cons lot rest ih =>
    intro i
    have h1 := (ih (i + 1)).1
    have h2 := (ih (i + 1)).2
    constructor
    · simp only [runCycleGo, if_true, List.mapIdx_cons]
      refine congrArg₂ List.cons (by rw [Nat.add_zero]) ?_
      rw [h1]
      refine congrArg₂ List.mapIdx ?_ rfl
      funext k a
      have hik : i + 1 + k = i + (k + 1) := by omega
      rw [hik]
    · simp only [runCycleGo, if_true, List.mapIdx_cons]
      refine congrArg₂ List.cons (by rw [Nat.add_zero]) ?_
      rw [h2]
      refine congrArg₂ List.mapIdx ?_ rfl
      funext k a
      have hik : i + 1 + k = i + (k + 1) := by omega
      rw [hik]

/-- C2 amended: a failure while persisting one facility's history snapshot
(inside recordCurrentState, which catches and logs its own errors) never
aborts the cycle: whenever every `lot.save()` succeeds, every facility is
perturbed, persisted and has its change event emitted, for every outcome of
the history draws and history saves. A failure of `lot.save()` itself,
however, aborts the remaining facilities of that cycle. -/
theorem C2_amended_thm (lots : List ParkingLotState) (now dow hr : ℤ) (rnd : ℕ → ℚ)
    (histDraw histOk : ℕ → Bool) :
    (runCycle now dow hr rnd (fun _ => true) histDraw histOk lots).1 =
      List.mapIdx (fun k lot => perturbLot lot now (rnd k)) lots ∧
    (runCycle now dow hr rnd (fun _ => true) histDraw histOk lots).2.1 =
      List.mapIdx (fun k lot => broadcastEvent (perturbLot lot now (rnd k))) lots := by
  have h := runCycleGo_all_saves_ok now dow hr rnd histDraw histOk lots 0
  simpa using h

/-- Models one raw Overpass element as consumed by the transformer:
`capacityTag` is the result of `parseInt(el.tags?.capacity)` (`none` for a
missing tag or a NaN parse); optional coordinates follow the element /
centroid distinction of nodes vs. ways. -/
structure OverpassElement where
  osmId : ℤ
  nameTag : Option String
  capacityTag : Option ℤ
  lat : Option ℚ
  lon : Option ℚ
  centerLat : Option ℚ
  centerLon : Option ℚ
deriving DecidableEq, Repr

/-- The `Math.random()` draws consumed while transforming one element:
for capacity fallback, occupancy, predicted delta, and confidence. -/
structure RandomDraws where
  capacity : ℚ
  occupied : ℚ
  predicted : ℚ
  confidence : ℚ
deriving DecidableEq, Repr

/-- The facility shape produced for OSM lots (server.js:250-259). -/
structure OsmParkingLot where
  id : String
  name : String
  totalSpots : ℤ
  availableSpots : ℤ
  lat : ℚ
  lng : ℚ
  lastUpdate : ℤ
  predictedAvailability : ℤ
  confidence : ℤ
deriving DecidableEq, Repr

/-- Models JS `x || y` on an optional number: a missing value and 0 are falsy. -/
def jsOrNum (x : Option ℚ) (y : ℚ) : ℚ :=
  match x with
  | some v => if v = 0 then y else v
  | none => y

/-- Models JS `parseInt(..) || y`: NaN (none) and 0 are falsy. -/
def jsOrInt (x : Option ℤ) (y : ℤ) : ℤ :=
  match x with
  | some v => if v = 0 then y else v
  | none => y

/-- Models JS `s || y` on an optional string: missing and "" are falsy. -/
def jsOrStr (x : Option String) (y : String) : String :=
  match x with
  | some s => if s = "" then y else s
  | none => y

/-- Models `mapOverpassToParkingLots` (server.js:243-261). `draws idx` are the
`Math.random()` values consumed for element `idx` (ambient PRNG state, not an
argument of the JS function); `now` models `new Date().toISOString()`.
Per element: `capacity = parseInt(tags.capacity) || ⌊rand*200 + 50⌋`,
`occupied = ⌊capacity * (0.3 + rand * 0.5)⌋`,
`available = max(0, capacity - occupied)`, location falls back through
element coords, centroid, then the caller-supplied coordinates, and
`predictedAvailability = max(0, available + ⌊rand*20 - 10⌋)`,
`confidence = 85 + ⌊rand*10⌋`. -/
def mapOverpassToParkingLots (elements : List OverpassElement)
    (fallbackLat fallbackLng : ℚ) (draws : ℕ → RandomDraws) (now : ℤ) :
    List OsmParkingLot :=
  List.mapIdx (fun idx el =>
    let d := draws idx
    let capacity := jsOrInt el.capacityTag ⌊d.capacity * 200 + 50⌋
    let occupied := ⌊(capacity : ℚ) * (0.3 + d.occupied * 0.5)⌋
    let available := max 0 (capacity - occupied)
    { id := "osm-" ++ toString el.osmId,
      name := jsOrStr el.nameTag ("Parking Lot " ++ toString (idx + 1)),
      totalSpots := capacity,
      availableSpots := available,
      lat := jsOrNum el.lat (jsOrNum el.centerLat fallbackLat),
      lng := jsOrNum el.lon (jsOrNum el.centerLon fallbackLng),
      lastUpdate := now,
      predictedAvailability := max 0 (available + (⌊d.predicted * 20 - 10⌋)),
      confidence := 85 + ⌊d.confidence * 10⌋ }) (elements.take 50)

/-- A concrete raw element with an explicit capacity tag. -/
def sampleElement : OverpassElement :=
  { osmId := 7, nameTag := some ("Lot Seven"), capacityTag := some 100,
    lat := some 33, lon := some (-111), centerLat := none, centerLon := none }

/-- C9 counterexample: two invocations of the transformer on the identical
element list and identical fallback coordinates, differing only in the
ambient `Math.random()` draws, produce different facility lists (here the
occupancy draw changes availableSpots from 70 to 45) — the transformer is
not deterministic in its inputs. -/
theorem C9_counterexample :
    mapOverpassToParkingLots [sampleElement] 0 0 (fun _ => ⟨0, 0, 0, 0⟩) 0 ≠
    mapOverpassToParkingLots [sampleElement] 0 0 (fun _ => ⟨0, 1/2, 0, 0⟩) 0 := by
  intro h
  have h1 := congrArg (List.map (fun lot => lot.availableSpots)) h
  norm_num [mapOverpassToParkingLots, sampleElement, jsOrInt, jsOrStr, jsOrNum,
    List.mapIdx_cons, List.take_succ_cons, List.take_nil] at h1

/-- C9 amended: the transformer mutates no server state, and the identifier,
name and location of every produced facility are determined by the element
list and fallback coordinates alone — equal across invocations whatever the
ambient random draws and clock; capacity (when no hint parses), available
count, predicted availability, confidence and timestamp do vary with the
ambient draws and clock. -/
theorem C9_amended_thm (elements : List OverpassElement) (fbLat fbLng : ℚ)
    (d1 d2 : ℕ → RandomDraws) (t1 t2 : ℤ) :
    (mapOverpassToParkingLots elements fbLat fbLng d1 t1).map
        (fun lot => (lot.id, lot.name, lot.lat, lot.lng)) =
    (mapOverpassToParkingLots elements fbLat fbLng d2 t2).map
        (fun lot => (lot.id, lot.name, lot.lat, lot.lng)) := by
  unfold mapOverpassToParkingLots
  rw [List.mapIdx_eq_enum_map, List.mapIdx_eq_enum_map, List.map_map, List.map_map]
  rfl

/-- C6 counterexample: in the no-data branch of the prediction engine, a
facility with availableSpots = totalSpots = 10 and draw r = 99/100
(delta +4) gets predictedSpots = 14 > totalSpots = 10 — predicted
availability does not satisfy the claimed bounds in every branch. -/
theorem C6_counterexample :
    (predictAvailability [] [] 10 10 0 (99/100)).1 = 14 ∧
    ¬ ((predictAvailability [] [] 10 10 0 (99/100)).1 ≤ 10) := by
  norm_num [predictAvailability]

/-- C6 amended: predicted availability is nonnegative in every branch of the
prediction engine and in every facility built by the transformer, and the
matched-history branch also clamps it to totalSpots; but the no-data branch
only floors at 0 — it is bounded by `max 0 (available + 4)` and can exceed
totalSpots — and the transformer's synthesized prediction is likewise only
bounded by `available + 9`, not by totalSpots. -/
theorem C6_amended_thm (matched recent : List ℚ) (a total : ℤ) (σ r : ℚ)
    (elements : List OverpassElement) (fbLat fbLng : ℚ) (draws : ℕ → RandomDraws)
    (now : ℤ) (hm : matched ≠ []) (ht : 0 ≤ total) (hr0 : 0 ≤ r) (hr1 : r < 1)
    (hd : ∀ i, 0 ≤ (draws i).predicted ∧ (draws i).predicted < 1) :
    (0 ≤ (predictAvailability matched recent a total σ r).1 ∧
        (predictAvailability matched recent a total σ r).1 ≤ total) ∧
    (0 ≤ (predictAvailability [] recent a total σ r).1 ∧
        (predictAvailability [] recent a total σ r).1 ≤ max 0 (a + 4)) ∧
    (∀ lot ∈ mapOverpassToParkingLots elements fbLat fbLng draws now,
        0 ≤ lot.predictedAvailability ∧
        lot.predictedAvailability ≤ lot.availableSpots + 9) := by
  refine ⟨?_, ?_, ?_⟩
  · have hlen : matched.length ≠ 0 := by simpa using hm
    unfold predictAvailability
    simp only [hlen, if_false]
    omega
  · have hlo : (-5 : ℤ) ≤ ⌊r * 10 - 5⌋ := by
      have h : ((-5 : ℤ) : ℚ) ≤ r * 10 - 5 := by push_cast; nlinarith
      exact Int.le_floor.mpr h
    have hhi : ⌊r * 10 - 5⌋ < (5 : ℤ) := by
      refine Int.floor_lt.mpr ?_
      push_cast
      nlinarith
    have hshape : (predictAvailability [] recent a total σ r).1 =
        max 0 (a + ⌊r * 10 - 5⌋) := rfl
    rw [hshape]
    omega
  · intro lot hlot
    unfold mapOverpassToParkingLots at hlot
    rw [List.mapIdx_eq_enum_map] at hlot
    rcases List.mem_map.mp hlot with ⟨⟨idx, el⟩, _, rfl⟩
    have hdp := hd idx
    have hlo : (-10 : ℤ) ≤ ⌊(draws idx).predicted * 20 - 10⌋ := by
      have h : ((-10 : ℤ) : ℚ) ≤ (draws idx).predicted * 20 - 10 := by
        push_cast; nlinarith [hdp.1]
      exact Int.le_floor.mpr h
    have hhi : ⌊(draws idx).predicted * 20 - 10⌋ < (10 : ℤ) := by
      refine Int.floor_lt.mpr ?_
      push_cast
      nlinarith [hdp.2]
    simp only [Function.uncurry_apply_pair]
    omega

/-- Witness for C6 amended at a concrete facility (available 45, total 150),
draw r = 1/2, and one concrete raw element with all draws 0. -/
theorem C6_amended_thm_witness :
    (0 ≤ (predictAvailability [45, 55] [] 45 150 0 (1/2)).1 ∧
        (predictAvailability [45, 55] [] 45 150 0 (1/2)).1 ≤ 150) ∧
    (0 ≤ (predictAvailability [] [] 45 150 0 (1/2)).1 ∧
        (predictAvailability [] [] 45 150 0 (1/2)).1 ≤ max 0 (45 + 4)) ∧
    (∀ lot ∈ mapOverpassToParkingLots [sampleElement] 0 0 (fun _ => ⟨0, 0, 0, 0⟩) 0,
        0 ≤ lot.predictedAvailability ∧
        lot.predictedAvailability ≤ lot.availableSpots + 9) :=
  C6_amended_thm [45, 55] [] 45 150 0 (1/2) [sampleElement] 0 0 (fun _ => ⟨0, 0, 0, 0⟩) 0
    (by simp) (by norm_num) (by norm_num) (by norm_num) (by intro i; norm_num)

/-- Outcome of one upstream attempt: a 2xx response with its payload, or a
non-2xx / transport error (axios throw or the explicit non-2xx throw at
server.js:201-202). -/
inductive UpstreamResult where
  | success (data : ℤ)
  | failed (err : ℤ)
deriving DecidableEq, Repr

/-- Whether the attempt outcome is a 2xx response. -/
def UpstreamResult.isSuccess : UpstreamResult → Bool
  | UpstreamResult.success _ => true
  | UpstreamResult.failed _ => false

/-- The payload of a successful attempt (dummy 0 otherwise). -/
def UpstreamResult.dataValue : UpstreamResult → ℤ
  | UpstreamResult.success d => d
  | UpstreamResult.failed _ => 0

/-- The error of a failed attempt (dummy 0 otherwise). -/
def UpstreamResult.errValue : UpstreamResult → ℤ
  | UpstreamResult.success _ => 0
  | UpstreamResult.failed e => e

/-- Models the loop of `callOverpass` (server.js:188-211) from attempt `i`
with `k` attempts remaining: `numMirrors` is `OVERPASS_MIRRORS.length`;
`resp i` is the outcome of attempt `i`; the mirror contacted on attempt `i`
is `OVERPASS_MIRRORS[i % numMirrors]`; `lastErr` starts undefined (`none`).
Returns the overall outcome and the ordered list of contacted mirror
indices. -/
def callOverpassGo (numMirrors : ℕ) (resp : ℕ → UpstreamResult) :
    ℕ → ℕ → Option ℤ → Except (Option ℤ) ℤ × List ℕ
  | 0, _, lastErr => (Except.error lastErr, [])
  | k + 1, i, _ =>
    match resp i with
    | UpstreamResult.success d => (Except.ok d, [i % numMirrors])
    | UpstreamResult.failed e =>
      let res := callOverpassGo numMirrors resp k (i + 1) (some e)
      (res.1, (i % numMirrors) :: res.2)

/-- Models `callOverpass(query, { attempts, .. })`: run from attempt 0 with
no last error recorded. -/
def callOverpass (attempts numMirrors : ℕ) (resp : ℕ → UpstreamResult) :
    Except (Option ℤ) ℤ × List ℕ :=
  callOverpassGo numMirrors resp attempts 0 none

/-- Helper: the contacted-mirror trace from attempt `i` is
`[i % N, (i+1) % N, ...]` for some number `m ≤ k` of attempts made. -/
lemma callOverpassGo_trace (N : ℕ) (resp : ℕ → UpstreamResult) :
    ∀ (k i : ℕ) (e : Option ℤ), ∃ m, m ≤ k ∧
      (callOverpassGo N resp k i e).2 = (List.range m).map (fun j => (i + j) % N) := by
  intro k
  induction k with
  | zero => intro i e; exact ⟨0, le_refl 0, by simp [callOverpassGo]⟩
  | succ k ih =>
    intro i e
    cases hr : resp i with
    | success d =>
      refine ⟨1, by omega, ?_⟩
      simp [callOverpassGo, hr, List.range_succ]
    | failed e2 =>
      rcases ih (i + 1) (some e2) with ⟨m, hm, heq⟩
      refine ⟨m + 1, by omega, ?_⟩
      simp only [callOverpassGo, hr, heq, List.range_succ_eq_map, List.map_cons,
        List.map_map]
      refine congrArg₂ List.cons (by rw [Nat.add_zero]) ?_
      refine congrArg₂ List.map ?_ rfl
      funext j
      simp only [Function.comp_apply, Nat.succ_eq_add_one]
      have hj : i + 1 + j = i + (j + 1) := by omega
      rw [hj]

/-- Helper: when every attempt from `i` to `i + k - 1` fails, the loop makes
all `k` attempts and surfaces the error of the last one. -/
lemma callOverpassGo_all_failed (N : ℕ) (resp : ℕ → UpstreamResult) :
    ∀ (k i : ℕ) (e : Option ℤ),
      (∀ j, j < k → (resp (i + j)).isSuccess = false) →
      (callOverpassGo N resp k i e).1 =
        Except.error (if k = 0 then e else some ((resp (i + k - 1)).errValue)) ∧
      (callOverpassGo N resp k i e).2.length = k := by
  intro k
  induction k with
  | zero => intro i e _; exact ⟨by simp [callOverpassGo], by simp [callOverpassGo]⟩
  | succ k ih =>
    intro i e hfail
    have h0 := hfail 0 (by omega)
    rw [Nat.add_zero] at h0
    cases hr : resp i with
    | success d => rw [hr] at h0; simp [UpstreamResult.isSuccess] at h0
    | failed e2 =>
      have hshift : ∀ j, j < k → (resp (i + 1 + j)).isSuccess = false := by
        intro j hj
        have := hfail (j + 1) (by omega)
        have harr : i + (j + 1) = i + 1 + j := by omega
        rwa [harr] at this
      rcases ih (i + 1) (some e2) hshift with ⟨h1, h2⟩
      constructor
      · simp only [callOverpassGo, hr, h1]
        cases k with
        | zero => simp [hr, UpstreamResult.errValue]
        | succ k2 =>
          have harr : i + 1 + (k2 + 1) - 1 = i + (k2 + 1 + 1) - 1 := by omega
          simp [harr]
      · simp only [callOverpassGo, hr, List.length_cons, h2]
  

/-- Helper: when the first successful attempt (counting from `i`) is at
offset `s < k`, the loop stops there, returns its payload, and has contacted
exactly `s + 1` mirrors. -/
lemma callOverpassGo_first_success (N : ℕ) (resp : ℕ → UpstreamResult) :
    ∀ (k i : ℕ) (e : Option ℤ) (s : ℕ), s < k →
      (resp (i + s)).isSuccess = true →
      (∀ j, j < s → (resp (i + j)).isSuccess = false) →
      (callOverpassGo N resp k i e).1 = Except.ok ((resp (i + s)).dataValue) ∧
      (callOverpassGo N resp k i e).2.length = s + 1 := by
  intro k
  induction k with
  | zero => intro i e s hs; omega
  | succ k ih =>
    intro i e s hs hsucc hfail
    cases s with
    | zero =>
      cases hr : resp i with
      | success d =>
        refine ⟨?_, by simp [callOverpassGo, hr]⟩
        have hio : i + 0 = i := Nat.add_zero i
        rw [hio, hr]
        simp [callOverpassGo, hr, UpstreamResult.dataValue]
      | failed e2 =>
        rw [Nat.add_zero] at hsucc
        rw [hr] at hsucc
        simp [UpstreamResult.isSuccess] at hsucc
    | succ s2 =>
      have h0 := hfail 0 (by omega)
      cases hr : resp i with
      | success d => rw [Nat.add_zero] at h0; rw [hr] at h0; simp [UpstreamResult.isSuccess] at h0
      | failed e2 =>
        have hsucc2 : (resp (i + 1 + s2)).isSuccess = true := by
          have harr : i + (s2 + 1) = i + 1 + s2 := by omega
          rwa [harr] at hsucc
        have hfail2 : ∀ j, j < s2 → (resp (i + 1 + j)).isSuccess = false := by
          intro j hj
          have := hfail (j + 1) (by omega)
          have harr : i + (j + 1) = i + 1 + j := by omega
          rwa [harr] at this
        rcases ih (i + 1) (some e2) s2 (by omega) hsucc2 hfail2 with ⟨h1, h2⟩
        constructor
        · simp only [callOverpassGo, hr, h1]
          have harr : i + 1 + s2 = i + (s2 + 1) := by omega
          rw [harr]
        · simp only [callOverpassGo, hr, List.length_cons, h2]

/-- C7: `callOverpass` with `numMirrors = N ≥ 1` and `attempts = A ≥ 1`
contacts mirrors in exactly the deterministic order `[0, 1, ..] mod N`
(attempt 0 always starts at mirror 0), stops at the first 2xx response,
never makes more than A attempts, and after A failed attempts surfaces the
last observed error. -/
theorem C7_mirror_rotation (A N : ℕ) (resp : ℕ → UpstreamResult)
    (hA : 1 ≤ A) (hN : 1 ≤ N) :
    ((callOverpass A N resp).2 =
        (List.range (callOverpass A N resp).2.length).map (fun j => j % N)) ∧
    (callOverpass A N resp).2.length ≤ A ∧
    ((∀ j, j < A → (resp j).isSuccess = false) →
        (callOverpass A N resp).1 = Except.error (some ((resp (A - 1)).errValue)) ∧
        (callOverpass A N resp).2.length = A) ∧
    (∀ s, s < A → (resp s).isSuccess = true →
        (∀ j, j < s → (resp j).isSuccess = false) →
        (callOverpass A N resp).1 = Except.ok ((resp s).dataValue) ∧
        (callOverpass A N resp).2.length = s + 1) := by
  rcases callOverpassGo_trace N resp A 0 none with ⟨m, hm, heq⟩
  have hlen : (callOverpass A N resp).2.length = m := by
    unfold callOverpass
    rw [heq]
    simp
  refine ⟨?_, ?_, ?_, ?_⟩
  · unfold callOverpass
    rw [heq]
    simp
  · rw [hlen]; exact hm
  · intro hfail
    have hfail2 : ∀ j, j < A → (resp (0 + j)).isSuccess = false := by
      intro j hj
      rw [Nat.zero_add]
      exact hfail j hj
    rcases callOverpassGo_all_failed N resp A 0 none hfail2 with ⟨h1, h2⟩
    refine ⟨?_, h2⟩
    unfold callOverpass
    rw [h1]
    have hA0 : A ≠ 0 := by omega
    simp [hA0]
  · intro s hs hsucc hfail
    have hsucc2 : (resp (0 + s)).isSuccess = true := by rwa [Nat.zero_add]
    have hfail2 : ∀ j, j < s → (resp (0 + j)).isSuccess = false := by
      intro j hj
      rw [Nat.zero_add]
      exact hfail j hj
    rcases callOverpassGo_first_success N resp A 0 none s hs hsucc2 hfail2 with ⟨h1, h2⟩
    refine ⟨?_, h2⟩
    unfold callOverpass
    rw [h1, Nat.zero_add]

/-- A concrete upstream scenario: attempts 0 and 1 fail, attempt 2 responds
2xx with payload 42. -/
def mirrorScenario : ℕ → UpstreamResult := fun i =>
  if i < 2 then UpstreamResult.failed (100 + i) else UpstreamResult.success 42

/-- Witness for C7: 3 mirrors, 3 attempts under `mirrorScenario`: the
contacted mirrors are `[0, 1, 2] mod 3`, at most 3 attempts are made, and
the first-success clause gives the payload 42 after 3 contacts. -/
theorem C7_mirror_rotation_witness :
    ((callOverpass 3 3 mirrorScenario).2 =
        (List.range (callOverpass 3 3 mirrorScenario).2.length).map (fun j => j % 3)) ∧
    (callOverpass 3 3 mirrorScenario).2.length ≤ 3 ∧
    ((∀ j, j < 3 → (mirrorScenario j).isSuccess = false) →
        (callOverpass 3 3 mirrorScenario).1 =
          Except.error (some ((mirrorScenario (3 - 1)).errValue)) ∧
        (callOverpass 3 3 mirrorScenario).2.length = 3) ∧
    (∀ s, s < 3 → (mirrorScenario s).isSuccess = true →
        (∀ j, j < s → (mirrorScenario j).isSuccess = false) →
        (callOverpass 3 3 mirrorScenario).1 = Except.ok ((mirrorScenario s).dataValue) ∧
        (callOverpass 3 3 mirrorScenario).2.length = s + 1) :=
  C7_mirror_rotation 3 3 mirrorScenario (by norm_num) (by norm_num)

/-- The JSON body of `app.get('/api/stats')` (server.js:524-541).
`avgOccupancy` is `Option ℚ`: `none` models a non-finite JS number
(`0/0 = NaN`), which `toFixed`/`parseFloat` keep as NaN and JSON
serializes as null. -/
structure StatsResponse where
  totalParkingLots : ℕ
  totalSpots : ℤ
  totalAvailable : ℤ
  avgOccupancy : Option ℚ
deriving DecidableEq, Repr

/-- Models `Number.prototype.toFixed(1)` followed by `parseFloat` on a finite
value: round to one decimal digit. -/
def toFixed1 (x : ℚ) : ℚ := (jsRound (x * 10) : ℚ) / 10

/-- Models the stats handler (server.js:524-541): sums over all stored lots,
then `avgOccupancy = parseFloat(((totalSpots - totalAvailable) / totalSpots
* 100).toFixed(1))` with no guard on `totalSpots = 0`. -/
def statsRoute (lots : List ParkingLotState) : StatsResponse :=
  let totalSpots := (lots.map (fun lot => lot.totalSpots)).sum
  let totalAvailable := (lots.map (fun lot => lot.availableSpots)).sum
  { totalParkingLots := lots.length,
    totalSpots := totalSpots,
    totalAvailable := totalAvailable,
    avgOccupancy :=
      (jsDiv ((totalSpots : ℚ) - (totalAvailable : ℚ)) (totalSpots : ℚ)).map
        (fun q => toFixed1 (q * 100)) }

/-- C10: on an empty facility store, stats() returns count 0, totalSpots 0,
totalAvailable 0, and avgOccupancy is the unguarded `(0-0)/0*100` — NaN
(modelled `none`, serialized null), not the number 0. -/
theorem C10_empty_stats :
    statsRoute [] =
      { totalParkingLots := 0, totalSpots := 0, totalAvailable := 0,
        avgOccupancy := none } ∧
    (statsRoute []).avgOccupancy ≠ some 0 := by
  constructor
  · rfl
  · intro h
    simp [statsRoute, jsDiv] at h

/-- The in-memory area cache singleton (server.js:214): one resident snapshot
with its key, facility list, id index and capture timestamp. -/
structure AreaCacheState where
  key : Option String
  lots : Option (List OsmParkingLot)
  indexById : List (String × OsmParkingLot)
  ts : ℤ
deriving DecidableEq, Repr

/-- The initial module state `{ key: null, lots: null, indexById: null, ts: 0 }`. -/
def emptyAreaCache : AreaCacheState :=
  { key := none, lots := none, indexById := [], ts := 0 }

/-- Models `saveAreaCache` (server.js:220-224): replace the resident snapshot
and rebuild the id index. -/
def saveAreaCache (key : String) (lots : List OsmParkingLot) (now : ℤ) : AreaCacheState :=
  { key := some key, lots := some lots,
    indexById := lots.map (fun lot => (lot.id, lot)), ts := now }

/-- Models `readAreaCache` (server.js:225-229): a key mismatch or an entry
older than `maxAgeMs` (10 minutes by default at every call site) is a miss. -/
def readAreaCache (cache : AreaCacheState) (key : String) (now maxAgeMs : ℤ) :
    Option AreaCacheState :=
  if cache.key ≠ some key then none
  else if now - cache.ts > maxAgeMs then none
  else some cache

/-- Upstream/area-list failure modes observable at the route layer. -/
inductive JsError where
  | referenceError (ident : String)
  | upstreamError (status : ℤ)
deriving DecidableEq, Repr

/-- Models `fetchOpenStreetMapParking` (server.js:264-296), the area-list
("listNearby") path. Its for-of loop iterates `OVERPASS_ENDPOINTS`, an
identifier bound nowhere in the module (the mirror list defined at
server.js:155 is named `OVERPASS_MIRRORS`), so evaluating the loop head
throws a ReferenceError before any HTTP request is issued; the function body
also contains no call to `readAreaCache` or `saveAreaCache` (those helpers
are never invoked on this path), so the area cache is neither consulted nor
populated. Returns (outcome, area cache afterwards, number of upstream HTTP
requests issued). -/
def fetchOpenStreetMapParking (cache : AreaCacheState) (lat lng : ℚ) (radius : ℤ) :
    Except JsError (List OsmParkingLot) × AreaCacheState × ℕ :=
  (Except.error (JsError.referenceError ("OVERPASS_ENDPOINTS")), cache, 0)

/-- C4 (code bug): two identical listNearby fetches within the area TTL.
Contrary to the claimed cache-once behaviour, the first call stores nothing
in the area cache (it throws before reaching any store step), the second
call is not served from the cache (a read for the matching key still
misses), and both calls fail with the ReferenceError on the unbound
`OVERPASS_ENDPOINTS`; no upstream request is ever issued. -/
theorem C4_code_bug_eval :
    (fetchOpenStreetMapParking emptyAreaCache 33.4242 (-111.9281) 5000).1 =
      Except.error (JsError.referenceError ("OVERPASS_ENDPOINTS")) ∧
    (fetchOpenStreetMapParking emptyAreaCache 33.4242 (-111.9281) 5000).2.1 =
      emptyAreaCache ∧
    (fetchOpenStreetMapParking
        ((fetchOpenStreetMapParking emptyAreaCache 33.4242 (-111.9281) 5000).2.1)
        33.4242 (-111.9281) 5000).1 =
      Except.error (JsError.referenceError ("OVERPASS_ENDPOINTS")) ∧
    readAreaCache
        ((fetchOpenStreetMapParking emptyAreaCache 33.4242 (-111.9281) 5000).2.1)
        "33.424,-111.928,5000" 1000 600000 = none ∧
    (fetchOpenStreetMapParking emptyAreaCache 33.4242 (-111.9281) 5000).2.2 +
      (fetchOpenStreetMapParking
        ((fetchOpenStreetMapParking emptyAreaCache 33.4242 (-111.9281) 5000).2.1)
        33.4242 (-111.9281) 5000).2.2 = 0 := by
  refine ⟨rfl, rfl, rfl, ?_, rfl⟩
  simp [readAreaCache, fetchOpenStreetMapParking, emptyAreaCache]
